import Mathlib

/-!
Verification of the retrieval-orchestration core of `lbrynet/daemon/Daemon.py`
(download coalescing, peer availability probing, cost estimation, and the
composite stream-availability check), via a shallow embedding of the relevant
methods.  Collaborators that live outside `Daemon.py` (the wallet resolver,
`smart_decode`, the DHT node, the blob downloader, the analytics manager, the
exchange-rate manager) enter the model as explicit behaviour parameters, while
the control flow of the embedded methods is translated from the source.
-/

namespace Lbry

/-- A small model of Python values, rich enough for the dictionaries these
daemon methods build and index. -/
inductive PyV where
  | pynone
  | pybool (b : Bool)
  | pyint (n : Int)
  | pystr (s : String)
  | pylist (xs : List PyV)
  | pydict (xs : List (PyV × PyV))

/-- Python exceptions that the embedded code can raise or catch. -/
inductive PyExc where
  | keyError (k : PyV)
  | indexError
  | typeError
  | unknownName          -- lbrynet.core.Error.UnknownNameError
  | uriParse             -- lbryschema.error.URIParseError
  | decodeError          -- lbryschema.error.DecodeError
  | downloadDataTimeout  -- lbrynet.core.Error.DownloadDataTimeout
  | downloadSDTimeout    -- lbrynet.core.Error.DownloadSDTimeout
  | other (msg : String)

/-- Python truthiness (`bool(v)`). -/
def pyTruthy : PyV → Bool
  | .pynone => false
  | .pybool b => b
  | .pyint n => n != 0
  | .pystr s => !s.isEmpty
  | .pylist xs => !xs.isEmpty
  | .pydict xs => !xs.isEmpty

/-- `str(v)` as used by a `"%s"` format; only the cases the embedded code can
reach are given a meaningful rendering. -/
def pyStr : PyV → String
  | .pynone => "None"
  | .pybool b => if b then "True" else "False"
  | .pyint n => toString n
  | .pystr s => s
  | .pylist _ => "[...]"
  | .pydict _ => "{...}"

/-- Equality test for the flat (hashable) Python values that can occur as
dictionary keys.  Containers are never equal to a flat value in Python, and
containers cannot be dictionary keys at all, so comparisons involving a
container return `false`. -/
def pyEqFlat : PyV → PyV → Bool
  | .pynone, .pynone => true
  | .pybool a, .pybool b => a == b
  | .pyint a, .pyint b => a == b
  | .pystr a, .pystr b => a == b
  | _, _ => false

/-- Python subscript `v[k]`: dictionary lookup (raising `KeyError` on a missing
key), list indexing by integer (raising `IndexError` out of range), and
`TypeError` otherwise. -/
def pySubscript : PyV → PyV → Except PyExc PyV
  | .pydict xs, k =>
    match xs.find? (fun p => pyEqFlat p.1 k) with
    | some p => .ok p.2
    | none => .error (.keyError k)
  | .pylist xs, .pyint n =>
    if h : 0 ≤ n ∧ n.toNat < xs.length then .ok (xs.get ⟨n.toNat, h.2⟩)
    else .error .indexError
  | _, _ => .error .typeError

/-- Python membership `k in v` for dictionaries (key membership) and lists
(element membership); `TypeError` on other receivers.  The embedded code only
ever tests membership of strings, for which the flat comparison is exact. -/
def pyContains : PyV → PyV → Except PyExc Bool
  | .pydict xs, k => .ok (xs.any (fun p => pyEqFlat p.1 k))
  | .pylist xs, k => .ok (xs.any (fun x => pyEqFlat x k))
  | _, _ => .error .typeError

/-- Python `len(v)` for lists and dictionaries; `TypeError` otherwise. -/
def pyLen : PyV → Except PyExc Int
  | .pylist xs => .ok xs.length
  | .pydict xs => .ok xs.length
  | _ => .error .typeError

/-- Python `a and b`: returns `a` when `a` is falsy, otherwise `b`. -/
def pyAnd (a b : PyV) : PyV := if pyTruthy a then b else a

/-- Python `d.get(k)` with default `None`, for the dictionary receivers the
embedded code applies it to. -/
def pyDictGet (v : PyV) (k : String) : PyV :=
  match v with
  | .pydict xs =>
    match xs.find? (fun p => pyEqFlat p.1 (.pystr k)) with
    | some p => p.2
    | none => .pynone
  | _ => .pynone

theorem pyTruthy_pyAnd (a b : PyV) :
    pyTruthy (pyAnd a b) = (pyTruthy a && pyTruthy b) := by
  unfold pyAnd
  by_cases h : pyTruthy a = true <;> simp [h]

@[simp] theorem except_bind_error {ε α β : Type} (e : ε) (f : α → Except ε β) :
    (Except.error e >>= f) = Except.error e := rfl

@[simp] theorem except_bind_ok {ε α β : Type} (a : α) (f : α → Except ε β) :
    ((Except.ok a : Except ε α) >>= f) = f a := rfl

@[simp] theorem except_map_error {ε α β : Type} (e : ε) (f : α → β) :
    (f <$> (Except.error e : Except ε α)) = Except.error e := rfl

@[simp] theorem except_map_ok {ε α β : Type} (a : α) (f : α → β) :
    (f <$> (Except.ok a : Except ε α)) = Except.ok (f a) := rfl

@[simp] theorem except_pure_eq {ε α : Type} (a : α) :
    (pure a : Except ε α) = Except.ok a := rfl

/-- Rendering of an exception by `"%s" % err`; the exact text is irrelevant to
the verified properties. -/
def excMsg : PyExc → String
  | .keyError k => pyStr k
  | .indexError => "list index out of range"
  | .typeError => "TypeError"
  | .unknownName => "UnknownNameError"
  | .uriParse => "URIParseError"
  | .decodeError => "DecodeError"
  | .downloadDataTimeout => "DownloadDataTimeout"
  | .downloadSDTimeout => "DownloadSDTimeout"
  | .other msg => msg

/-! ## Peer availability probing

`Daemon.jsonrpc_peer_list` (Daemon.py:2656-2691) and `Daemon._blob_availability`
(Daemon.py:640-679). -/

/-- Outcome of the DHT collaborator `self.dht_node.iterativeFindValue` combined
with the `addTimeout` on its deferred: either a list of `(node_id, host, port)`
triples, a `defer.TimeoutError` (trapped by `trap_timeout`), or another
failure (re-raised by `err.trap`). -/
inductive DhtOut where
  | found (peers : List (String × String × Int))
  | timedOut
  | failed (msg : String)

/-- Behaviour parameters of one `_blob_availability` call: the blob-hash
validity check (`utils.is_valid_blobhash`), the DHT lookup outcome, and the
per-peer `downloader.download_temp_blob_from_peer` deferred outcomes, indexed
by position in the attempt list `dl` and reported by `defer.DeferredList` as
`(success, result)` pairs. -/
structure ProbeInput where
  validHash : Bool
  dht : DhtOut
  fetch : Nat → Bool × PyV

/-- `Daemon.jsonrpc_peer_list` (Daemon.py:2671-2691): rejects an invalid blob
hash, traps a DHT search timeout into an empty peer list, and renders each
found peer as the dictionary `{"node_id": ..., "host": ..., "port": ...}`. -/
def jsonrpc_peer_list (validHash : Bool) (dht : DhtOut) : Except PyExc (List PyV) :=
  if !validHash then .error (.other "invalid blob hash")
  else
    match dht with
    | .timedOut => .ok []
    | .failed m => .error (.other m)
    | .found peers => .ok (peers.map (fun t =>
        .pydict [(.pystr "node_id", .pystr t.1), (.pystr "host", .pystr t.2.1),
                 (.pystr "port", .pyint t.2.2)]))

/-- The `peer_infos` list comprehension (Daemon.py:652-654):
`[{"peer": Peer(x[0], x[1]), ...} for x in peers if x[2]]`.  For each element
the guard `x[2]` is evaluated first; any raised exception propagates.  Of each
kept entry we retain the `Peer(x[0], x[1])` arguments (host, port), the only
parts the rest of the method reads. -/
def peer_infos_build : List PyV → Except PyExc (List (PyV × PyV))
  | [] => .ok []
  | x :: rest => do
    let flag ← pySubscript x (.pyint 2)
    if pyTruthy flag then
      let h ← pySubscript x (.pyint 0)
      let p ← pySubscript x (.pyint 1)
      let tl ← peer_infos_build rest
      pure ((h, p) :: tl)
    else
      peer_infos_build rest

/-- `"%s:%i" % (peer_info['peer'].host, peer_info['peer'].port)`
(Daemon.py:661): `%i` requires an integral argument. -/
def format_peer_addr : PyV × PyV → Except PyExc String
  | (h, .pyint p) => .ok (pyStr h ++ ":" ++ toString p)
  | _ => .error .typeError

/-- The classification loop (Daemon.py:662-669) over
`zip(dl_peers, DeferredList results)`: an attempt that settled successfully is
classified by the truthiness of its result (reachable/unreachable) and its
result is collected into `dl_results`; an attempt that settled with a failure
is skipped entirely. -/
def classify_step (acc : List String × List String × List PyV)
    (x : String × (Bool × PyV)) : List String × List String × List PyV :=
  if x.2.1 then
    if pyTruthy x.2.2 then (acc.1 ++ [x.1], acc.2.1, acc.2.2 ++ [x.2.2])
    else (acc.1, acc.2.1 ++ [x.1], acc.2.2 ++ [x.2.2])
  else acc

/-- The `response` dictionary built at Daemon.py:674-678. -/
structure BlobResp where
  is_available : Bool
  reachable_peers : List String
  unreachable_peers : List String
deriving Repr, DecidableEq

/-- `Daemon._blob_availability` (Daemon.py:640-679).  Returns the `response`
dictionary contents together with the `result['error']` message that the
`except` clause stores in the local `result` dictionary — a value the method
never returns (the `response` literal at line 674 is built only from
`is_available`, `reachable_peers` and `unreachable_peers`). -/
def blob_availability_core (inp : ProbeInput) : BlobResp × Option String :=
  match (do
      let peers ← jsonrpc_peer_list inp.validHash inp.dht
      let infos ← peer_infos_build peers
      let dlPeers ← infos.mapM format_peer_addr
      let results := (List.range dlPeers.length).map inp.fetch
      let c := (dlPeers.zip results).foldl classify_step ([], [], [])
      pure (c.2.2.any pyTruthy, c.1, c.2.1) :
      Except PyExc (Bool × List String × List String)) with
  | .ok r => (⟨r.1, r.2.1, r.2.2⟩, none)
  | .error e => (⟨false, [], []⟩, some ("Failed to get peers for blob: " ++ excMsg e))

/-- The returned `response` dictionary itself (Daemon.py:674-678); note that it
carries exactly three keys and no `error` entry. -/
def blob_availability_response (inp : ProbeInput) : PyV :=
  let r := (blob_availability_core inp).1
  .pydict [(.pystr "is_available", .pybool r.is_available),
           (.pystr "reachable_peers", .pylist (r.reachable_peers.map .pystr)),
           (.pystr "unreachable_peers", .pylist (r.unreachable_peers.map .pystr))]

/-- The candidate peer addresses of a probe: the `host:port` renderings of the
peers the DHT lookup produced. -/
def probed_candidates (inp : ProbeInput) : List String :=
  match inp.dht with
  | .found peers => peers.map (fun t => t.2.1 ++ ":" ++ toString t.2.2)
  | _ => []

/-- `jsonrpc_peer_list` only ever produces string-keyed dictionaries, so the
integer subscript `x[2]` in the `peer_infos` comprehension raises `KeyError`
on the first element of any non-empty peer list. -/
theorem peer_infos_build_peer_list_cons (t : String × String × Int) (rest : List PyV) :
    peer_infos_build (PyV.pydict [(.pystr "node_id", .pystr t.1), (.pystr "host", .pystr t.2.1),
      (.pystr "port", .pyint t.2.2)] :: rest) = .error (.keyError (.pyint 2)) := by
  simp [peer_infos_build, pySubscript, List.find?, pyEqFlat]

/-- Whatever the behaviours, `_blob_availability` answers with `is_available =
False` and two empty peer lists: an empty candidate list yields the empty
classification, and a non-empty one raises `KeyError` while building
`peer_infos` (the peer dictionaries produced by `jsonrpc_peer_list` are
string-keyed but indexed with the integers 0..2), which the `except` clause
swallows. -/
theorem blob_availability_core_resp (inp : ProbeInput) :
    (blob_availability_core inp).1 = ⟨false, [], []⟩ := by
  rcases inp with ⟨valid, dht, fetch⟩
  cases valid
  · simp [blob_availability_core, jsonrpc_peer_list]
  · cases dht with
    | timedOut =>
      simp [blob_availability_core, jsonrpc_peer_list, peer_infos_build,
        List.mapM, List.mapM.loop, classify_step]
    | failed m => simp [blob_availability_core, jsonrpc_peer_list]
    | found peers =>
      cases peers with
      | nil =>
        simp [blob_availability_core, jsonrpc_peer_list, peer_infos_build,
          List.mapM, List.mapM.loop, classify_step]
      | cons t rest =>
        simp [blob_availability_core, jsonrpc_peer_list,
          peer_infos_build_peer_list_cons t (rest.map _)]

/-! ## Download coalescing: `Daemon._download_name` (Daemon.py:306-356)

The registry `self.streams` maps an sd hash to its in-flight `GetStream`
session.  A call first tests `sd_hash in self.streams` (line 324): if present
it yields the registered session's `finished_deferred` (attaching to the
shared outcome); otherwise it registers a fresh `GetStream` (line 332), starts
it (line 337) and, in a `try/except/finally`, removes the registration in
`finally` (line 355). -/

/-- The value a `_download_name` call settles with. -/
inductive DlOutcome where
  | attachWait (sdHash : String)  -- attach branch: the registered session's finished_deferred value
  | fileDict (v : PyV)            -- success: `_get_lbry_file_dict(lbry_file, full_status=True)`
  | errDict (msg : String)        -- except branch: `{'error': err.message}`

/-- Behaviours of the collaborators one creating `_download_name` call sees. -/
structure DlBehaviour where
  sendStartedRaises : Bool           -- analytics_manager.send_download_started (line 330, synchronous)
  startResult : Except PyExc PyV     -- GetStream.start (line 337); payload abstracted
  fileDictResult : Except PyExc PyV  -- _get_lbry_file_dict (line 344)
  failedReport : Except PyExc Unit   -- _download_failed: analytics report + send_download_errored (318-322)
  downloaderSet : Bool               -- truthiness of streams[sd_hash].downloader (line 351)
  codeRunning : Bool                 -- streams[sd_hash].code == 'running' (line 351)
  stopResult : Except PyExc Unit     -- downloader.stop(err) (line 352)

/-- The `except` block of `_download_name` (Daemon.py:345-353): report the
failure to analytics (a failure there propagates), optionally stop a
non-running downloader (a failure there propagates too), else settle with
`{'error': err.message}`. -/
def download_name_except (b : DlBehaviour) (e : PyExc) : Except PyExc DlOutcome :=
  match b.failedReport with
  | .error e2 => .error e2
  | .ok _ =>
    if b.downloaderSet && !b.codeRunning then
      match b.stopResult with
      | .error e3 => .error e3
      | .ok _ => .ok (.errDict (excMsg e))
    else .ok (.errDict (excMsg e))

/-- `Daemon._download_name` (Daemon.py:306-356), one call, with the registry
threaded explicitly (`self.streams` modelled as the list of registered sd
hashes).  Returns the updated registry and the call's settlement. -/
def download_name (streams : List String) (sd : String) (b : DlBehaviour) :
    List String × Except PyExc DlOutcome :=
  if sd ∈ streams then
    -- lines 324-327: attach to the existing session's finished_deferred
    (streams, .ok (.attachWait sd))
  else if b.sendStartedRaises then
    -- line 330 raises before the registration at line 332
    (streams, .error (.other "analytics send_download_started failed"))
  else
    let streams1 := sd :: streams   -- line 332: self.streams[sd_hash] = GetStream(...)
    let settled : Except PyExc DlOutcome :=
      match b.startResult with
      | .ok _ =>
        -- line 340: finished_deferred.addCallbacks(...) — registry untouched
        match b.fileDictResult with
        | .ok v => .ok (.fileDict v)
        | .error e => download_name_except b e
      | .error e => download_name_except b e
    -- line 355: `finally: del self.streams[sd_hash]` runs on every path above
    (streams1.erase sd, settled)

/-! ### Concurrent entries

Between the membership test `sd_hash in self.streams` (line 324) and either
the attach (line 326) or the registration (line 332) there is no `yield`
point, so under Twisted's cooperative `inlineCallbacks` scheduling the entry
of each `_download_name` call runs as one atomic step against the registry;
`GetStream.start` for session `sid` is invoked exactly when the entry
registers `sid`.  `settle` is the creator reaching `finally: del
self.streams[sd_hash]` (line 355). -/

/-- An atomic scheduler event for one sd hash: a caller's entry into
`_download_name`, or the registered session settling and being removed. -/
inductive AcqEvent where
  | arrive (caller : Nat)
  | settle
deriving Repr, DecidableEq

/-- Coalescing state for one sd hash: the registered session (if any), a
fresh-session counter, the log of sessions for which `GetStream.start` was
invoked, and the (caller, session) pairs of callers that attached to an
existing session's `finished_deferred`. -/
structure CoordState where
  registered : Option Nat
  nextId : Nat
  starts : List Nat
  attached : List (Nat × Nat)
deriving Repr, DecidableEq

def coordInit : CoordState := ⟨none, 0, [], []⟩

/-- One atomic step: an arriving caller attaches when a session is registered
(lines 324-326) and otherwise registers a fresh session and starts its
transfer (lines 332-337); a settle removes the registration (line 355). -/
def coordStep (s : CoordState) : AcqEvent → CoordState
  | .arrive c =>
    match s.registered with
    | some sid => { s with attached := s.attached ++ [(c, sid)] }
    | none => { s with registered := some s.nextId, nextId := s.nextId + 1,
                       starts := s.starts ++ [s.nextId] }
  | .settle => { s with registered := none }

def coordRun (evs : List AcqEvent) : CoordState := evs.foldl coordStep coordInit

theorem coordFold_arrives (evs : List AcqEvent) (s : CoordState)
    (hreg : s.registered = some 0) (hstarts : s.starts = [0]) (hnext : s.nextId = 1)
    (hatt : ∀ p ∈ s.attached, p.2 = 0)
    (hno : AcqEvent.settle ∉ evs) :
    (evs.foldl coordStep s).registered = some 0 ∧
    (evs.foldl coordStep s).starts = [0] ∧
    (evs.foldl coordStep s).nextId = 1 ∧
    ∀ p ∈ (evs.foldl coordStep s).attached, p.2 = 0 := by
  induction evs generalizing s with
  | nil => exact ⟨hreg, hstarts, hnext, hatt⟩
  | cons e rest ih =>
    have hne : e ≠ .settle := fun h => hno (h ▸ List.mem_cons_self e rest)
    have hrest : AcqEvent.settle ∉ rest := fun h => hno (List.mem_cons_of_mem e h)
    cases e with
    | settle => exact absurd rfl hne
    | arrive c =>
      simp only [List.foldl_cons, coordStep, hreg]
      exact ih _ rfl hstarts hnext
        (by
          intro p hp
          rcases List.mem_append.mp hp with h | h
          · exact hatt p h
          · simp at h; simp [h])
        hrest

/-! ## Cost estimation (Daemon.py:445-533) -/

/-- A declared key fee (`claim.source_fee`): currency and amount. -/
structure Fee where
  currency : String
  amount : ℚ

/-- The fields of a loaded `ClaimDict` that the estimator reads. -/
structure ClaimMeta where
  source_hash : String
  source_fee : Option Fee

/-- `Daemon._get_est_cost_from_stream_size` (Daemon.py:445-452): zero under a
generous payment policy, else `size / (10 ** 6) * data_rate`.  The file has no
`from __future__ import division`, so the Python 2 `/` on the two `int`s is
floor division. -/
def get_est_cost_from_stream_size (generous : Bool) (dataRate : ℚ) (size : Int) : ℚ :=
  if generous then 0 else (Int.fdiv size (10 ^ 6) : ℚ) * dataRate

/-- `Daemon.get_est_cost_from_sd_hash` (Daemon.py:472-480): the callback chain
`get_or_download_sd_blob → get_size_from_sd_blob → _get_est_cost_from_stream_size`.
The first two steps are collaborator work (blob download and sd-blob parsing);
their combined outcome — the declared stream size, or the failure of either
step — is the `sizeRes` parameter. -/
def get_est_cost_from_sd_hash (generous : Bool) (dataRate : ℚ)
    (sizeRes : Except PyExc Int) : Except PyExc ℚ :=
  sizeRes.map (get_est_cost_from_stream_size generous dataRate)

/-- `Daemon._add_key_fee_to_est_data_cost` (Daemon.py:497-501):
`fee_amount = 0.0 if not fee else convert_currency(fee.currency, "LBC",
fee.amount)`, returning `data_cost + fee_amount`.  `convert` is the
exchange-rate collaborator. -/
def add_key_fee_to_est_data_cost (convert : String → ℚ → ℚ) (fee : Option Fee)
    (dataCost : ℚ) : ℚ :=
  let feeAmount : ℚ :=
    match fee with
    | none => 0
    | some f => convert f.currency f.amount
  dataCost + feeAmount

/-- Result of `_get_est_cost_from_metadata`: the estimated total and whether
the degradation warning (`"Timeout getting blob for cost est ..."`) was
logged. -/
structure MetaCostOut where
  total : ℚ
  warnedTimeout : Bool
deriving Repr, DecidableEq

/-- `Daemon._get_est_cost_from_metadata` (Daemon.py:482-495): runs the
sd-hash cost chain and attaches `_handle_err` as an errback.  An errback
argument is always a twisted `Failure`, so `_handle_err` logs the warning and
returns `0.0` for every failure of the chain; the key fee is then added by the
following callback in either case. -/
def get_est_cost_from_metadata (generous : Bool) (dataRate : ℚ)
    (convert : String → ℚ → ℚ) (sizeRes : Except PyExc Int) (meta : ClaimMeta) :
    MetaCostOut :=
  match get_est_cost_from_sd_hash generous dataRate sizeRes with
  | .error _ => ⟨add_key_fee_to_est_data_cost convert meta.source_fee 0, true⟩
  | .ok dataCost => ⟨add_key_fee_to_est_data_cost convert meta.source_fee dataCost, false⟩

/-- Python 2 `round(q, 5)`: half rounds away from zero. -/
def pyRound5 (q : ℚ) : ℚ :=
  if q ≥ 0 then (⌊q * 100000 + 1/2⌋ : ℚ) / 100000
  else -((⌊-q * 100000 + 1/2⌋ : ℚ) / 100000)

/-- Behaviours one `get_est_cost_from_uri` call sees. -/
structure CostUriInput where
  uri : String
  resolveRes : Except PyExc PyV            -- `self._resolve(uri)`: the results mapping, or a raised exception
  loadDict : PyV → Except PyExc ClaimMeta  -- `ClaimDict.load_dict` behaviour
  generous : Bool
  dataRate : ℚ
  sizeRes : Except PyExc Int               -- outcome of the sd-blob size chain
  convert : String → ℚ → ℚ

/-- `Daemon.get_est_cost_from_uri` (Daemon.py:503-523).  Note line 509 indexes
the resolve mapping with the URI, and line 511 indexes the resulting per-URI
claim response with the URI *again*; no exception handler surrounds either. -/
def get_est_cost_from_uri (inp : CostUriInput) : Except PyExc (Option ℚ) := do
  let full ← inp.resolveRes
  let resolved ← pySubscript full (.pystr inp.uri)
  let claim_response ←
    if pyTruthy resolved then pySubscript resolved (.pystr inp.uri)
    else pure PyV.pynone
  if pyTruthy claim_response then
    let hasClaim ← pyContains claim_response (.pystr "claim")
    if hasClaim then
      let claimV ← pySubscript claim_response (.pystr "claim")
      let hasValue ← pyContains claimV (.pystr "value")
      if hasValue then
        let v ← pySubscript claimV (.pystr "value")
        match v with
        | .pynone => pure none    -- line 522: log.warning, result stays None
        | v => do
          let meta ← inp.loadDict v
          let out := get_est_cost_from_metadata inp.generous inp.dataRate inp.convert
            inp.sizeRes meta
          pure (some (pyRound5 out.total))
      else pure none
    else pure none
  else pure none

/-! ## Stream availability: `Daemon.jsonrpc_stream_availability` (Daemon.py:3032-3133) -/

/-- The fields of a `smart_decode` result that the method reads. -/
structure ClaimObj where
  is_stream : Bool
  source_hash : String

/-- Collaborator invocations `jsonrpc_stream_availability` performs after the
classification stage. -/
inductive SACall where
  | blobGet     -- jsonrpc_blob_get(sd_hash, ...) (line 3112)
  | blobDelete  -- jsonrpc_blob_delete(sd_hash) (line 3115)
  | probeHead   -- _blob_availability(head_blob_hash, ...) (line 3119)
  | probeSd     -- _blob_availability(sd_hash, ...) (line 3127)
deriving Repr, DecidableEq

/-- Behaviours one `jsonrpc_stream_availability` call sees. -/
structure SAInput where
  uri : String
  resolveRes : Except PyExc PyV             -- `self._resolve(uri)`: the results mapping, or a raised exception
  smartDecode : PyV → Except PyExc ClaimObj -- `smart_decode` behaviour
  useUpnp : Bool                            -- conf.settings['use_upnp']
  upnpRedirectSet : Bool                    -- len(self.session.upnp_redirects) > 0
  haveSdBlob : Bool                         -- sd_hash in self.session.blob_manager.blobs (line 3110)
  blobGetRes : Except PyExc PyV             -- jsonrpc_blob_get(sd_hash, blob_timeout, "json") outcome
  blobDeleteRes : Except PyExc Unit         -- jsonrpc_blob_delete(sd_hash) outcome
  headProbe : ProbeInput                    -- behaviours of the head-blob `_blob_availability` call
  sdProbe : ProbeInput                      -- behaviours of the sd-blob `_blob_availability` call

/-- The `response` dictionary of `jsonrpc_stream_availability`
(Daemon.py:3069-3082), field for field. -/
structure SAResp where
  is_available : PyV
  did_decode : Bool
  did_resolve : Bool
  is_stream : Bool
  num_blobs_in_stream : PyV
  sd_hash : PyV
  sd_blob_availability : PyV
  head_blob_hash : PyV
  head_blob_availability : PyV
  use_upnp : Bool
  upnp_redirect_is_set : Bool
  error : PyV

/-- The initial `response` (Daemon.py:3069-3082). -/
def sa_init (inp : SAInput) : SAResp :=
  ⟨.pybool false, false, false, false, .pynone, .pynone, .pydict [], .pynone, .pydict [],
    inp.useUpnp, inp.upnpRedirectSet, .pynone⟩

/-- Outcome of the resolve and decode stages (Daemon.py:3084-3099). -/
inductive Stage12Out where
  | earlyReturn (resp : SAResp)
  | raised (e : PyExc)
  | decoded (resolvedResult : PyV) (c : ClaimObj)

/-- Stages 1-2 (Daemon.py:3084-3099).  Stage 1 catches only `UnknownNameError`
and `URIParseError`; stage 2 catches only `DecodeError`.  Note line 3085
indexes the resolve mapping with the URI and line 3095 indexes the resulting
per-URI value with the URI *again*; a `KeyError` from either subscript is
caught by neither handler. -/
def sa_stage12 (inp : SAInput) : Stage12Out :=
  let resp0 := sa_init inp
  match inp.resolveRes with
  | .error .unknownName => .earlyReturn { resp0 with error := .pystr "Failed to resolve name" }
  | .error .uriParse => .earlyReturn { resp0 with error := .pystr "Invalid URI" }
  | .error e => .raised e
  | .ok full =>
    match pySubscript full (.pystr inp.uri) with
    | .error e => .raised e
    | .ok resolvedResult =>
      let resp1 := { resp0 with did_resolve := true }
      match (do
          let a ← pySubscript resolvedResult (.pystr inp.uri)
          let b ← pySubscript a (.pystr "claim")
          let cx ← pySubscript b (.pystr "hex")
          inp.smartDecode cx) with
      | .error .decodeError =>
        .earlyReturn { resp1 with error := .pystr "Failed to decode claim value" }
      | .error e => .raised e
      | .ok c => .decoded resolvedResult c

/-- The partial state written by the `try` block at Daemon.py:3111-3125:
`response['num_blobs_in_stream']`, the local `head_blob_hash`,
`response['head_blob_availability']`, the captured error (if any), and the
collaborator calls performed.  Assignments made before an exception are kept,
exactly as in the method. -/
structure Stage4Out where
  num : PyV
  headHash : PyV
  headAvail : PyV
  err : Option PyExc
  calls : List SACall

/-- Stage 4: fetch the descriptor blob, delete it again when it was not
already cached, and extract the head blob hash and probe it
(Daemon.py:3108-3125). -/
def sa_stage4 (inp : SAInput) : Stage4Out :=
  match inp.blobGetRes with
  | .error e => ⟨.pynone, .pynone, .pydict [], some e, [.blobGet]⟩
  | .ok sd_blob =>
    let delRes : Except PyExc Unit := if inp.haveSdBlob then .ok () else inp.blobDeleteRes
    let calls1 := if inp.haveSdBlob then [SACall.blobGet] else [SACall.blobGet, SACall.blobDelete]
    match delRes with
    | .error e => ⟨.pynone, .pynone, .pydict [], some e, calls1⟩
    | .ok _ =>
      if pyTruthy sd_blob then
        match pyContains sd_blob (.pystr "blobs") with
        | .error e => ⟨.pynone, .pynone, .pydict [], some e, calls1⟩
        | .ok false => ⟨.pynone, .pynone, .pydict [], none, calls1⟩
        | .ok true =>
          match (do
              let bl ← pySubscript sd_blob (.pystr "blobs")
              pyLen bl) with
          | .error e => ⟨.pynone, .pynone, .pydict [], some e, calls1⟩
          | .ok n =>
            match (do
                let bl ← pySubscript sd_blob (.pystr "blobs")
                let b0 ← pySubscript bl (.pyint 0)
                pySubscript b0 (.pystr "blob_hash")) with
            | .error e => ⟨.pyint (n - 1), .pynone, .pydict [], some e, calls1⟩
            | .ok hh =>
              ⟨.pyint (n - 1), hh, blob_availability_response inp.headProbe, none,
                calls1 ++ [.probeHead]⟩
      else ⟨.pynone, .pynone, .pydict [], none, calls1⟩

/-- `Daemon.jsonrpc_stream_availability` (Daemon.py:3032-3133): the settled
result (structured response, or a propagated exception) together with the log
of collaborator calls made.  After the classification stage the method always
runs the sd-blob availability probe (line 3127, outside the `try`) and
computes `is_available` as the Python `and` of the two probes'
`.get('is_available')` (lines 3131-3132). -/
def jsonrpc_stream_availability (inp : SAInput) : Except PyExc SAResp × List SACall :=
  match sa_stage12 inp with
  | .raised e => (.error e, [])
  | .earlyReturn r => (.ok r, [])
  | .decoded _ c =>
    let resp2 := { (sa_init inp) with
      did_resolve := true, did_decode := true, is_stream := c.is_stream }
    if !c.is_stream then
      (.ok { resp2 with
        error := .pystr ("Claim for \"" ++ inp.uri ++ "\" does not contain a stream") }, [])
    else
      let resp3 := { resp2 with sd_hash := .pystr c.source_hash }
      let s4 := sa_stage4 inp
      let sdAvail := blob_availability_response inp.sdProbe
      (.ok { resp3 with
        num_blobs_in_stream := s4.num,
        head_blob_availability := s4.headAvail,
        error := match s4.err with
          | some e => .pystr (excMsg e)   -- `response['error'] = err` stores the exception
          | none => resp3.error,
        head_blob_hash := s4.headHash,
        sd_blob_availability := sdAvail,
        is_available := pyAnd (pyDictGet sdAvail "is_available")
          (pyDictGet s4.headAvail "is_available") },
       s4.calls ++ [.probeSd])

/-! ## Supporting lemmas -/

theorem blob_availability_response_eq (inp : ProbeInput) :
    blob_availability_response inp =
      .pydict [(.pystr "is_available", .pybool false),
               (.pystr "reachable_peers", .pylist []),
               (.pystr "unreachable_peers", .pylist [])] := by
  unfold blob_availability_response
  rw [blob_availability_core_resp]
  rfl

theorem blob_availability_response_get_is_available (inp : ProbeInput) :
    pyDictGet (blob_availability_response inp) "is_available" = .pybool false := by
  rw [blob_availability_response_eq]
  rfl

theorem pyAnd_false_left (b : PyV) : pyAnd (.pybool false) b = .pybool false := rfl

theorem nonstream_msg_truthy (uri : String) :
    pyTruthy (.pystr ("Claim for \"" ++ uri ++ "\" does not contain a stream")) = true := by
  simp only [pyTruthy, Bool.not_eq_true']
  rw [Bool.eq_false_iff]
  intro h
  rw [String.isEmpty_iff] at h
  have hlen := congrArg String.length h
  have h1 : ("Claim for \"" ++ uri ++ "\" does not contain a stream").length =
      "Claim for \"".length + uri.length + "\" does not contain a stream".length := by
    simp [String.length_append]
  have h2 : ("Claim for \"").length = 11 := rfl
  have h3 : ("\" does not contain a stream").length = 27 := rfl
  have h0 : ("" : String).length = 0 := rfl
  rw [h1, h2, h3, h0] at hlen
  omega

/-! ## Claim theorems -/

/-- C1: for every set of concurrent `_download_name` entries with the same sd
hash — a trace of arrivals with no settle in between, so every later call
arrives while the first call's session is still registered — only the first
arrival creates a session (exactly one fresh session id is allocated) and
`GetStream.start` is invoked exactly once; every later arrival attaches to
that registered session, and since they all wait on the same session's
`finished_deferred`, any two attached callers receive the same
success/failure value. -/
theorem download_name_single_flight (evs : List AcqEvent) (outcome : Nat → Int)
    (hne : evs ≠ []) (hconc : AcqEvent.settle ∉ evs) :
    (coordRun evs).starts = [0] ∧ (coordRun evs).nextId = 1 ∧
    (∀ p ∈ (coordRun evs).attached, p.2 = 0) ∧
    (∀ p ∈ (coordRun evs).attached, ∀ q ∈ (coordRun evs).attached,
      outcome p.2 = outcome q.2) := by
  cases evs with
  | nil => exact absurd rfl hne
  | cons e rest =>
    have hne2 : e ≠ .settle := fun h => hconc (h ▸ List.mem_cons_self e rest)
    have hrest : AcqEvent.settle ∉ rest := fun h => hconc (List.mem_cons_of_mem e h)
    cases e with
    | settle => exact absurd rfl hne2
    | arrive c =>
      have hstep : coordStep coordInit (.arrive c) = ⟨some 0, 1, [0], []⟩ := rfl
      have h := coordFold_arrives rest ⟨some 0, 1, [0], []⟩ rfl rfl rfl
        (by intro p hp; simp at hp) hrest
      have hrun : coordRun (.arrive c :: rest) = rest.foldl coordStep ⟨some 0, 1, [0], []⟩ := by
        unfold coordRun
        rw [List.foldl_cons, hstep]
      rw [hrun]
      refine ⟨h.2.1, h.2.2.1, h.2.2.2, ?_⟩
      intro p hp q hq
      rw [h.2.2.2 p hp, h.2.2.2 q hq]

/-- Witness for C1: three concurrent arrivals, no settle. -/
theorem download_name_single_flight_witness :
    (([AcqEvent.arrive 0, .arrive 1, .arrive 2] : List AcqEvent) ≠ []) ∧
    AcqEvent.settle ∉ ([AcqEvent.arrive 0, .arrive 1, .arrive 2] : List AcqEvent) ∧
    ((coordRun [AcqEvent.arrive 0, .arrive 1, .arrive 2]).starts = [0] ∧
     (coordRun [AcqEvent.arrive 0, .arrive 1, .arrive 2]).nextId = 1 ∧
     (∀ p ∈ (coordRun [AcqEvent.arrive 0, .arrive 1, .arrive 2]).attached, p.2 = 0) ∧
     (∀ p ∈ (coordRun [AcqEvent.arrive 0, .arrive 1, .arrive 2]).attached,
      ∀ q ∈ (coordRun [AcqEvent.arrive 0, .arrive 1, .arrive 2]).attached,
        (fun n => (n : Int)) p.2 = (fun n => (n : Int)) q.2)) :=
  ⟨by decide, by decide,
    download_name_single_flight [AcqEvent.arrive 0, .arrive 1, .arrive 2]
      (fun n => (n : Int)) (by decide) (by decide)⟩

/-- C2: for every `_download_name` call that creates a new session (the sd
hash is not yet registered), the sd hash is absent from `self.streams` once
the call settles — whatever the behaviours of `GetStream.start`, the file-dict
rendering, the downloader stop, and the analytics reporting (including a
failing `_download_failed` report), because the removal sits in the `finally`
clause (Daemon.py:354-355). -/
theorem download_name_registry_cleanup (streams : List String) (sd : String)
    (b : DlBehaviour) (hnew : sd ∉ streams) :
    sd ∉ (download_name streams sd b).1 := by
  cases hb : b.sendStartedRaises <;>
    simp [download_name, hnew, hb, List.erase_cons_head]

/-- Witness for C2: a creating call whose transfer start fails and whose
analytics failure report itself raises. -/
theorem download_name_registry_cleanup_witness :
    ("abc123" ∉ ["otherhash"]) ∧
    "abc123" ∉ (download_name ["otherhash"] "abc123"
      ⟨false, .error (.downloadSDTimeout), .ok .pynone,
        .error (.other "analytics down"), true, false, .ok ()⟩).1 :=
  ⟨by decide,
    download_name_registry_cleanup ["otherhash"] "abc123"
      ⟨false, .error (.downloadSDTimeout), .ok .pynone,
        .error (.other "analytics down"), true, false, .ok ()⟩ (by decide)⟩

/-- C3: for every `_blob_availability` probe, the reachable and unreachable
peer lists are disjoint, every entry of either list is one of the probed
candidate peer addresses, and their combined length is at most the number of
candidates.  (In this code the property holds degenerately: both returned
lists are always empty, see `blob_availability_core_resp`.) -/
theorem blob_availability_lists_sound (inp : ProbeInput) :
    (∀ a ∈ (blob_availability_core inp).1.reachable_peers,
      a ∉ (blob_availability_core inp).1.unreachable_peers) ∧
    (∀ a ∈ (blob_availability_core inp).1.reachable_peers, a ∈ probed_candidates inp) ∧
    (∀ a ∈ (blob_availability_core inp).1.unreachable_peers, a ∈ probed_candidates inp) ∧
    (blob_availability_core inp).1.reachable_peers.length +
      (blob_availability_core inp).1.unreachable_peers.length ≤
      (probed_candidates inp).length := by
  rw [blob_availability_core_resp]
  simp

/-- Witness for C3 at a two-candidate probe. -/
theorem blob_availability_lists_sound_witness :
    (∀ a ∈ (blob_availability_core
        ⟨true, .found [("n1", "h1", 1), ("n2", "h2", 2)], fun _ => (true, .pystr "x")⟩).1.reachable_peers,
      a ∉ (blob_availability_core
        ⟨true, .found [("n1", "h1", 1), ("n2", "h2", 2)], fun _ => (true, .pystr "x")⟩).1.unreachable_peers) ∧
    (∀ a ∈ (blob_availability_core
        ⟨true, .found [("n1", "h1", 1), ("n2", "h2", 2)], fun _ => (true, .pystr "x")⟩).1.reachable_peers,
      a ∈ probed_candidates ⟨true, .found [("n1", "h1", 1), ("n2", "h2", 2)], fun _ => (true, .pystr "x")⟩) ∧
    (∀ a ∈ (blob_availability_core
        ⟨true, .found [("n1", "h1", 1), ("n2", "h2", 2)], fun _ => (true, .pystr "x")⟩).1.unreachable_peers,
      a ∈ probed_candidates ⟨true, .found [("n1", "h1", 1), ("n2", "h2", 2)], fun _ => (true, .pystr "x")⟩) ∧
    (blob_availability_core
        ⟨true, .found [("n1", "h1", 1), ("n2", "h2", 2)], fun _ => (true, .pystr "x")⟩).1.reachable_peers.length +
      (blob_availability_core
        ⟨true, .found [("n1", "h1", 1), ("n2", "h2", 2)], fun _ => (true, .pystr "x")⟩).1.unreachable_peers.length ≤
      (probed_candidates ⟨true, .found [("n1", "h1", 1), ("n2", "h2", 2)], fun _ => (true, .pystr "x")⟩).length :=
  blob_availability_lists_sound ⟨true, .found [("n1", "h1", 1), ("n2", "h2", 2)], fun _ => (true, .pystr "x")⟩

/-- A probe over one valid candidate peer whose temp-blob fetch attempt
settles successfully with a non-empty result. -/
def probeSuccessfulFetch : ProbeInput :=
  ⟨true, .found [("n1", "1.2.3.4", 3333)], fun _ => (true, .pystr "blobdata")⟩

/-- C4 counterexample: a probed peer whose fetch attempt completes with a
non-empty result is NOT classified reachable (nor unreachable — both lists
come back empty), refuting the claimed classification: building `peer_infos`
indexes the string-keyed peer dictionary with the integer 2 and the raised
`KeyError` aborts the probe round before any fetch attempt starts. -/
theorem blob_availability_classification_counterexample :
    probeSuccessfulFetch.fetch 0 = (true, PyV.pystr "blobdata") ∧
    probed_candidates probeSuccessfulFetch = ["1.2.3.4:3333"] ∧
    (blob_availability_core probeSuccessfulFetch).1.reachable_peers = [] ∧
    (blob_availability_core probeSuccessfulFetch).1.unreachable_peers = [] := by
  refine ⟨rfl, rfl, ?_, ?_⟩ <;> rw [blob_availability_core_resp]

/-- C4 amended: no probed peer is ever classified.  With at least one
candidate the `peer_infos` comprehension raises (`x[2]` on a string-keyed
dictionary) and the `except` clause swallows the error, so for every input the
report has `is_available = False`, empty reachable and unreachable lists, and
no error entry in the returned dictionary.  (Had the classification loop been
reachable, an attempt that settles with a failure would be appended to
neither list — see `classify_step` — and would never set an error field of
the returned report either.) -/
theorem blob_availability_no_classification (inp : ProbeInput) :
    (blob_availability_core inp).1 = ⟨false, [], []⟩ ∧
    pyContains (blob_availability_response inp) (.pystr "error") = .ok false :=
  ⟨blob_availability_core_resp inp, by rw [blob_availability_response_eq]; rfl⟩

/-- A probe whose peer lookup raises (`utils.is_valid_blobhash` fails, so
`jsonrpc_peer_list` raises `Exception("invalid blob hash")`). -/
def probeLookupRaises : ProbeInput :=
  ⟨false, .timedOut, fun _ => (true, .pynone)⟩

/-- C10 counterexample: when peer lookup raises, the failure message is
recorded only in the local `result` dictionary; the returned report has no
`error` entry at all (subscripting it with `"error"` raises `KeyError`),
refuting the claimed error entry. -/
theorem blob_availability_error_entry_counterexample :
    (blob_availability_core probeLookupRaises).2 =
      some "Failed to get peers for blob: invalid blob hash" ∧
    pySubscript (blob_availability_response probeLookupRaises) (.pystr "error") =
      .error (.keyError (.pystr "error")) := by
  constructor
  · rfl
  · rw [blob_availability_response_eq]
    rfl

/-- C10 amended: if looking up or probing peers raises, `_blob_availability`
still returns (rather than raising) the fixed-shape report
`{'is_available': False, 'reachable_peers': [], 'unreachable_peers': []}`;
the failure message is recorded in a local dictionary that is not part of the
returned report. -/
theorem blob_availability_failure_shape (inp : ProbeInput) (msg : String)
    (_hfail : (blob_availability_core inp).2 = some msg) :
    blob_availability_response inp =
      .pydict [(.pystr "is_available", .pybool false),
               (.pystr "reachable_peers", .pylist []),
               (.pystr "unreachable_peers", .pylist [])] :=
  blob_availability_response_eq inp

/-- Witness for C10's amended theorem at a concrete raising lookup. -/
theorem blob_availability_failure_shape_witness :
    (blob_availability_core probeLookupRaises).2 =
      some "Failed to get peers for blob: invalid blob hash" ∧
    blob_availability_response probeLookupRaises =
      .pydict [(.pystr "is_available", .pybool false),
               (.pystr "reachable_peers", .pylist []),
               (.pystr "unreachable_peers", .pylist [])] :=
  ⟨rfl, blob_availability_failure_shape probeLookupRaises
    "Failed to get peers for blob: invalid blob hash" rfl⟩

/-- C7: when the descriptor-blob retrieval chain fails (in particular when it
times out), `_get_est_cost_from_metadata` does not propagate the failure: its
`_handle_err` errback (whose argument is always a twisted `Failure`) logs the
degradation warning and substitutes a data cost of `0.0`, after which the key
fee (zero when absent) is still added to produce the returned total — the
result type of the embedded estimator is a plain value, so no error reaches
the caller of the URI-based estimate through this stage. -/
theorem cost_estimate_degrades_on_timeout (generous : Bool) (dataRate : ℚ)
    (convert : String → ℚ → ℚ) (meta : ClaimMeta) (e : PyExc) :
    get_est_cost_from_metadata generous dataRate convert (.error e) meta =
      ⟨add_key_fee_to_est_data_cost convert meta.source_fee 0, true⟩ := rfl

/-- A `get_est_cost_from_uri` input whose resolution yields a usable claim:
the resolve mapping sends the URI to a claim response holding a non-null
claim value, exactly the shape the sibling call sites
(`get_est_cost_using_known_size`, `jsonrpc_get`, `jsonrpc_resolve`) consume
with a single `[uri]` indexing. -/
def costUriUsableClaim : CostUriInput :=
  ⟨"lbry://test",
   .ok (.pydict [(.pystr "lbry://test",
     .pydict [(.pystr "claim",
       .pydict [(.pystr "value", .pydict [(.pystr "stream", .pystr "payload")])])])]),
   fun _ => .ok ⟨"sdhash", none⟩,
   false, 1 / 10, .ok 1000000, fun _ amount => amount⟩

/-- C8 evaluated at the failing input: with a resolution that yields a usable
claim, `get_est_cost_from_uri` raises `KeyError(uri)` instead of returning a
numeric estimate, because line 509 already selected the per-URI claim
response and line 511 indexes that response with the URI a second time. -/
theorem get_est_cost_from_uri_keyerror :
    get_est_cost_from_uri costUriUsableClaim =
      .error (.keyError (.pystr "lbry://test")) := rfl

/-- A probe input whose peer search merely times out (zero candidates). -/
def probeQuiet : ProbeInput := ⟨true, .timedOut, fun _ => (false, .pynone)⟩

/-- C5: for every stream-availability check that reaches the probing stage
(the claim decoded and classified as a stream claim), the returned
`is_available` field is truthy iff both the sd-blob probe's and the head-blob
probe's `is_available` entries are truthy; and when no head content piece was
found (`head_blob_hash` is `None`) the field is falsy, not vacuously true. -/
theorem stream_availability_is_available_iff (inp : SAInput) (rv : PyV) (c : ClaimObj)
    (h12 : sa_stage12 inp = .decoded rv c) (hs : c.is_stream = true) :
    ∀ resp, (jsonrpc_stream_availability inp).1 = .ok resp →
      (pyTruthy resp.is_available =
        (pyTruthy (pyDictGet resp.sd_blob_availability "is_available") &&
         pyTruthy (pyDictGet resp.head_blob_availability "is_available"))) ∧
      (resp.head_blob_hash = .pynone → pyTruthy resp.is_available = false) := by
  intro resp h
  unfold jsonrpc_stream_availability at h
  rw [h12] at h
  simp only [hs, Bool.not_true, Bool.false_eq_true, if_false] at h
  injection h with h
  subst h
  refine ⟨pyTruthy_pyAnd _ _, fun _ => ?_⟩
  rw [blob_availability_response_get_is_available, pyAnd_false_left]
  rfl

/-- A resolve mapping nesting the per-URI result one level deeper (`{uri:
{uri: {...}}}`), the only shape under which the double indexing of lines
3085/3095 lets the check reach its later stages; claim classified as a
stream, descriptor blob found with a head piece. -/
def saStreamClaim : SAInput :=
  ⟨"lbry://movie",
   .ok (.pydict [(.pystr "lbry://movie", .pydict [(.pystr "lbry://movie",
     .pydict [(.pystr "claim", .pydict [(.pystr "hex", .pystr "0b")])])])]),
   fun _ => .ok ⟨true, "sdhash"⟩,
   false, false, false,
   .ok (.pydict [(.pystr "blobs",
     .pylist [.pydict [(.pystr "blob_hash", .pystr "headhash")], .pydict []])]),
   .ok (), probeQuiet, probeQuiet⟩

def saStreamRv : PyV :=
  .pydict [(.pystr "lbry://movie",
    .pydict [(.pystr "claim", .pydict [(.pystr "hex", .pystr "0b")])])]

/-- Witness for C5 at a concrete check that reaches the probing stage. -/
theorem stream_availability_is_available_iff_witness :
    sa_stage12 saStreamClaim = .decoded saStreamRv ⟨true, "sdhash"⟩ ∧
    ∀ resp, (jsonrpc_stream_availability saStreamClaim).1 = .ok resp →
      (pyTruthy resp.is_available =
        (pyTruthy (pyDictGet resp.sd_blob_availability "is_available") &&
         pyTruthy (pyDictGet resp.head_blob_availability "is_available"))) ∧
      (resp.head_blob_hash = .pynone → pyTruthy resp.is_available = false) :=
  ⟨rfl, stream_availability_is_available_iff saStreamClaim saStreamRv ⟨true, "sdhash"⟩ rfl rfl⟩

/-- A stream-availability input whose resolution yields the flat per-URI
mapping shape that every other `_resolve` call site of the daemon consumes
with a single `[uri]` indexing. -/
def saFlatResolve : SAInput :=
  ⟨"lbry://test",
   .ok (.pydict [(.pystr "lbry://test",
     .pydict [(.pystr "claim", .pydict [(.pystr "hex", .pystr "deadbeef")])])]),
   fun _ => .ok ⟨true, "sdhash"⟩,
   false, false, false, .ok (.pydict []), .ok (), probeQuiet, probeQuiet⟩

/-- C6 evaluated at the failing input: with a successfully resolved URI in
the daemon's standard flat mapping shape, `jsonrpc_stream_availability`
raises `KeyError(uri)` out of the decode stage (line 3095 indexes the per-URI
result with the URI again, and only `DecodeError` is caught there) instead of
returning a structured result. -/
theorem stream_availability_raises_keyerror :
    (jsonrpc_stream_availability saFlatResolve).1 =
      .error (.keyError (.pystr "lbry://test")) := rfl

/-- C9: for every stream-availability check in which the locator resolves and
the claim decodes but the claim is not a stream claim, the check
short-circuits: no collaborator call is made after classification (no
descriptor-blob fetch, no peer probe), and the result has `is_stream =
False`, a falsy `is_available`, and the populated explanatory error string. -/
theorem stream_availability_nonstream_short_circuit (inp : SAInput) (rv : PyV) (c : ClaimObj)
    (h12 : sa_stage12 inp = .decoded rv c) (hs : c.is_stream = false) :
    (jsonrpc_stream_availability inp).2 = [] ∧
    ∀ resp, (jsonrpc_stream_availability inp).1 = .ok resp →
      resp.is_stream = false ∧
      pyTruthy resp.is_available = false ∧
      resp.error = .pystr ("Claim for \"" ++ inp.uri ++ "\" does not contain a stream") ∧
      pyTruthy resp.error = true := by
  unfold jsonrpc_stream_availability
  rw [h12]
  simp only [hs, Bool.not_false, if_true]
  refine ⟨trivial, ?_⟩
  intro resp h
  injection h with h
  subst h
  exact ⟨rfl, rfl, rfl, nonstream_msg_truthy inp.uri⟩

/-- A nested resolve mapping carrying a non-stream (channel) claim. -/
def saNonStreamClaim : SAInput :=
  ⟨"lbry://chan",
   .ok (.pydict [(.pystr "lbry://chan", .pydict [(.pystr "lbry://chan",
     .pydict [(.pystr "claim", .pydict [(.pystr "hex", .pystr "0a")])])])]),
   fun _ => .ok ⟨false, "unused"⟩,
   false, false, false, .ok (.pydict []), .ok (), probeQuiet, probeQuiet⟩

def saNonStreamRv : PyV :=
  .pydict [(.pystr "lbry://chan",
    .pydict [(.pystr "claim", .pydict [(.pystr "hex", .pystr "0a")])])]

/-- Witness for C9 at a concrete resolved-and-decoded non-stream claim. -/
theorem stream_availability_nonstream_short_circuit_witness :
    sa_stage12 saNonStreamClaim = .decoded saNonStreamRv ⟨false, "unused"⟩ ∧
    ((jsonrpc_stream_availability saNonStreamClaim).2 = [] ∧
     ∀ resp, (jsonrpc_stream_availability saNonStreamClaim).1 = .ok resp →
       resp.is_stream = false ∧
       pyTruthy resp.is_available = false ∧
       resp.error = .pystr ("Claim for \"" ++ saNonStreamClaim.uri ++
         "\" does not contain a stream") ∧
       pyTruthy resp.error = true) :=
  ⟨rfl, stream_availability_nonstream_short_circuit saNonStreamClaim saNonStreamRv
    ⟨false, "unused"⟩ rfl rfl⟩

end Lbry
